import Mathlib

/-!
Verification of the bakery backend's product catalog, order and contact
paths.  Definitions are shallow embeddings of `src/main.py` and
`src/schemas.py`; the storage gateway (`database.py`, not part of the
sources) and pydantic's `EmailStr` validator (third-party) are modelled
from the specification's description of their interfaces.
-/

namespace Bakery

/-- Embeds `BreadProduct` from `src/schemas.py`: one bread item of the
catalog.  Optional fields are `Option`s; prices are rationals standing for
the Python floats (all literals used by the program are exactly
representable). -/
structure BreadProduct where
  name : String
  description : Option String
  price : ℚ
  flavor : String
  vegan : Bool
  organic : Bool
  image : Option String
  in_stock : Bool
  available_today : Bool
  lead_time_hours : Int
  is_special : Bool
  special_price : Option ℚ
  tags : List String
deriving DecidableEq, Repr

/-- The `Literal["Chocolate", "Banana", "Coconut"]` constraint on
`BreadProduct.flavor` (`src/schemas.py` line 28). -/
def flavorAllowed (s : String) : Bool :=
  s = "Chocolate" || s = "Banana" || s = "Coconut"

/-- `ge=0` constraint on the optional `special_price` field. -/
def optNonneg : Option ℚ → Bool
  | none => true
  | some q => decide (0 ≤ q)

/-- The conjunction of the field constraints pydantic checks when coercing
a document into `BreadProduct` (`src/schemas.py` lines 22-41): `price`
non-negative, `flavor` in the literal set, `lead_time_hours` in `[0,168]`,
`special_price` non-negative when present. -/
def breadProductOk (p : BreadProduct) : Bool :=
  decide (0 ≤ p.price) && flavorAllowed p.flavor &&
    decide (0 ≤ p.lead_time_hours ∧ p.lead_time_hours ≤ 168) &&
    optNonneg p.special_price

/-- Pydantic coercion `BreadProduct(**d)` on a document whose fields carry
the declared types: returns the validated record, or `none` when a field
constraint fails (a `ValidationError` in the source). -/
def validateBreadProduct (p : BreadProduct) : Option BreadProduct :=
  if breadProductOk p then some p else none

/-- A document as the storage gateway holds it: the record together with
the storage-internal identity field `_id` (modelled as a `Nat`). -/
structure StoredDoc where
  oid : Nat
  doc : BreadProduct
deriving DecidableEq, Repr

/-- The `breadproduct` collection of the document store: the documents in
storage order. -/
abbrev ProductStore := List StoredDoc

/-- Fault configuration of one request's interaction with the storage
gateway: whether the handle is `None`, whether the count call raises,
whether the `i`-th insert raises, whether the fetch raises.  This is how
exceptions of the external collaborator are made explicit. -/
structure Gateway where
  dbNone : Bool
  countFault : Bool
  insertFault : Nat → Bool
  fetchFault : Bool

/-- The fault-free gateway: handle present, no call raises. -/
def noFaults : Gateway := ⟨false, false, fun _ => false, false⟩

/-- Modelled from the spec: the storage gateway's
`insertOne(collectionName, document) -> generated identifier`
(`database.py` is not under `src/`).  The document is appended to the
collection with a fresh storage identity. -/
def create_document (s : ProductStore) (d : BreadProduct) : ProductStore :=
  s ++ [⟨s.length, d⟩]

/-- Modelled from the spec: the storage gateway's
`fetchAll(collectionName) -> sequence of documents`: returns every stored
document (identity field included), or raises when the gateway faults. -/
def get_documents (g : Gateway) (s : ProductStore) :
    Except String ProductStore :=
  if g.fetchFault then Except.error "fetch failed" else Except.ok s

/-- First hardcoded default product of `_seed_products_if_empty`
(`src/main.py` lines 32-46), every field explicit. -/
def seedChoc : BreadProduct :=
  { name := "Chocolate Sweet Bread"
    description :=
       some "Rich, moist vegan loaf made with organic cacao and coconut sugar."
    price := 8.5
    flavor := "Chocolate"
    vegan := true
    organic := true
    image := some "https://images.unsplash.com/photo-1541781286675-09d03b606ffa?q=80&w=1200&auto=format&fit=crop"
    in_stock := true
    available_today := true
    lead_time_hours := 0
    is_special := false
    special_price := none
    tags := ["Customer Favorite"] }

/-- Second hardcoded default product of `_seed_products_if_empty`
(`src/main.py` lines 47-61), every field explicit. -/
def seedBanana : BreadProduct :=
  { name := "Banana Island Loaf"
    description :=
       some "Naturally sweet, ultra-soft banana bread with a hint of spice."
    price := 7.5
    flavor := "Banana"
    vegan := true
    organic := true
    image := some "https://images.unsplash.com/photo-1517686469429-8bdb88b9f907?q=80&w=1200&auto=format&fit=crop"
    in_stock := true
    available_today := false
    lead_time_hours := 24
    is_special := true
    special_price := some 6.75
    tags := ["Weekend Special", "Ripe Bananas"] }

/-- Third hardcoded default product of `_seed_products_if_empty`
(`src/main.py` lines 62-76), every field explicit. -/
def seedCoconut : BreadProduct :=
  { name := "Coconut Sunshine Loaf"
    description :=
       some "Toasted coconut flakes and creamy coconut milk for a tropical treat."
    price := 8.0
    flavor := "Coconut"
    vegan := true
    organic := true
    image := some "https://images.unsplash.com/photo-1548160-9c8b-4b57-9c1f-035e3e7d5b1e?q=80&w=1200&auto=format&fit=crop"
    in_stock := true
    available_today := true
    lead_time_hours := 0
    is_special := false
    special_price := none
    tags := ["Toasted Coconut"] }

/-- The list of the three defaults, in the fixed order the `defaults`
literal of `src/main.py` lines 31-77 gives them. -/
def seedDefaults : List BreadProduct := [seedChoc, seedBanana, seedCoconut]

/-- The `for d in defaults: create_document("breadproduct", d)` loop:
inserts each default in order; when the gateway faults on the `i`-th
insert the raised error carries the partial state reached so far. -/
def insertDefaults (g : Gateway) :
    List BreadProduct → Nat → ProductStore →
      Except (String × ProductStore) ProductStore
  | [], _, s => Except.ok s
  | d :: ds, i, s =>
      if g.insertFault i then Except.error ("insert failed", s)
      else insertDefaults g ds (i + 1) (create_document s d)

/-- The body of the `try` block of `_seed_products_if_empty`
(`src/main.py` lines 27-79): return early when `db is None`; count the
stored products; insert the three defaults exactly when the count is zero.
An error value carries the state at the point the exception was raised. -/
def seedBody (g : Gateway) (s : ProductStore) :
    Except (String × ProductStore) ProductStore :=
  if g.dbNone then Except.ok s
  else if g.countFault then Except.error ("count failed", s)
  else if s.length = 0 then insertDefaults g seedDefaults 0 s
  else Except.ok s

/-- `_seed_products_if_empty` (`src/main.py` lines 24-82): runs the
seeding body and swallows any exception (`except Exception: pass`),
returning whatever state the store reached. -/
def seed_products_if_empty (g : Gateway) (s : ProductStore) : ProductStore :=
  match seedBody g s with
  | Except.ok s' => s'
  | Except.error (_, s') => s'

/-- The per-document loop of `list_products` (`src/main.py` lines 91-95):
strip the storage-internal `_id` from each fetched document and coerce it
into the `BreadProduct` shape; the first coercion failure aborts the whole
list. -/
def coerceProducts : List StoredDoc → Option (List BreadProduct)
  | [] => some []
  | d :: ds =>
      match validateBreadProduct d.doc with
      | none => none
      | some p => (coerceProducts ds).map (fun ps => p :: ps)

/-- The read phase of `list_products`: fetch all documents and coerce
them; a fetch exception or a coercion failure becomes the HTTP 500 of the
surrounding `except` clause (`src/main.py` lines 96-97). -/
def readProducts (g : Gateway) (s : ProductStore) :
    Except String (List BreadProduct) :=
  match get_documents g s with
  | Except.error e => Except.error e
  | Except.ok docs =>
      match coerceProducts docs with
      | none => Except.error "validation error"
      | some ps => Except.ok ps

/-- `list_products` (`src/main.py` lines 86-97), `GET /api/products`:
attempt the seeding, then read; returns the state of the store after the
request together with the HTTP outcome (`Except.error` = status 500). -/
def list_products (g : Gateway) (s : ProductStore) :
    ProductStore × Except String (List BreadProduct) :=
  let s' := seed_products_if_empty g s
  (s', readProducts g s')

/-- Modelled from the spec: pydantic's `EmailStr` (third-party validator,
not part of the sources) — the field "must match email-address shape".  An
address is well-formed when it splits at a single `@` into a non-empty
local part and a non-empty domain containing a dot. -/
def emailValid (s : String) : Bool :=
  let cs := s.data
  let l := cs.takeWhile (fun c => c ≠ '@')
  match cs.dropWhile (fun c => c ≠ '@') with
  | [] => false
  | _ :: d => !l.isEmpty && !d.isEmpty && !d.contains '@' && d.contains '.'

/-- Embeds `Order` from `src/schemas.py`: one customer purchase request.
Timestamps are kept as opaque optional strings (no constraint in the
source touches their value). -/
structure Order where
  customer_name : String
  email : String
  phone : Option String
  product_name : String
  quantity : Int
  notes : Option String
  fulfillment_method : String
  pickup_time : Option String
  delivery_time : Option String
  delivery_address : Option String
  notify_via : String
  whatsapp : Option String
deriving DecidableEq, Repr

/-- The field constraints of the `Order` schema (`src/schemas.py` lines
48-63): well-formed email, `quantity` in `[1,50]`, the two literal
enumerations. -/
def orderOk (o : Order) : Bool :=
  emailValid o.email &&
    decide (1 ≤ o.quantity ∧ o.quantity ≤ 50) &&
    (o.fulfillment_method = "pickup" || o.fulfillment_method = "delivery") &&
    (o.notify_via = "email" || o.notify_via = "whatsapp")

/-- Pydantic validation of an order payload, performed by the HTTP layer
before `create_order` runs: the typed record, or `none` on a schema
violation (surfaced as a client-error response before the handler). -/
def validateOrder (o : Order) : Option Order :=
  if orderOk o then some o else none

/-- Modelled from the spec: the identifier the storage gateway generates
for the `n`-th inserted document of a collection
(`insertOne(...) -> generated identifier`). -/
def genId (n : Nat) : String :=
  "doc-" ++ toString n

/-- The acknowledgment body `create_order` returns (`src/main.py` lines
104-108): status, generated identifier, and the notification descriptor
echoing the requested channel with status `"queued"`. -/
structure OrderResponse where
  status : String
  order_id : String
  notification_channel : String
  notification_status : String
deriving DecidableEq, Repr

/-- `create_order` (`src/main.py` lines 99-110) behind the HTTP layer's
schema validation, `POST /api/orders`: reject invalid payloads before any
storage call; otherwise persist the order once and acknowledge with the
generated identifier and the queued-notification stub. -/
def handle_create_order (o : Order) (s : List Order) :
    List Order × Except String OrderResponse :=
  match validateOrder o with
  | none => (s, Except.error "validation rejected")
  | some o' =>
      (s ++ [o'],
       Except.ok
         { status := "ok"
           order_id := genId s.length
           notification_channel := o'.notify_via
           notification_status := "queued" })

/-- Embeds `ContactMessage` from `src/schemas.py`: one inbound inquiry. -/
structure ContactMessage where
  name : String
  email : String
  message : String
deriving DecidableEq, Repr

/-- The field constraints of the `ContactMessage` schema (`src/schemas.py`
lines 65-72): well-formed email and message length in `[5,2000]`. -/
def contactOk (m : ContactMessage) : Bool :=
  emailValid m.email &&
    decide (5 ≤ m.message.length ∧ m.message.length ≤ 2000)

/-- Pydantic validation of a contact payload, performed before the
handler runs. -/
def validateContact (m : ContactMessage) : Option ContactMessage :=
  if contactOk m then some m else none

/-- `contact` (`src/main.py` lines 112-118) behind the HTTP layer's schema
validation, `POST /api/contact`: reject invalid payloads before any
storage call; otherwise persist the message once and acknowledge. -/
def handle_contact (m : ContactMessage) (s : List ContactMessage) :
    List ContactMessage × Except String (String × String) :=
  match validateContact m with
  | none => (s, Except.error "validation rejected")
  | some m' => (s ++ [m'], Except.ok ("ok", genId s.length))

/-- The environment the `/test` handler observes: whether the handle is
present, the optional `db.name` attribute, the outcome of
`list_collection_names()`, and the presence of the two environment
variables. -/
structure TestEnv where
  dbAvailable : Bool
  dbName : Option String
  listCollections : Except String (List String)
  urlSet : Bool
  nameSet : Bool

/-- The diagnostic response record of `test_database` (`src/main.py`
lines 122-129).  Fields that Python initializes to `None` are
`Option String`. -/
structure TestResponse where
  backend : String
  database : String
  database_url : Option String
  database_name : Option String
  connection_status : String
  collections : List String
deriving DecidableEq, Repr

/-- `test_database` (`src/main.py` lines 120-153), `GET /test`: build the
diagnostic response, filling connection-derived values, then
unconditionally overwrite `database_url` and `database_name` from the
presence of the environment variables (lines 150-151). -/
def test_database (e : TestEnv) : TestResponse :=
  let r0 : TestResponse :=
    { backend := "✅ Running"
      database := "❌ Not Available"
      database_url := none
      database_name := none
      connection_status := "Not Connected"
      collections := [] }
  let r1 :=
    if e.dbAvailable then
      let r :=
        { r0 with
            database := "✅ Available"
            database_url := some "✅ Configured"
            database_name :=
              some (match e.dbName with
                    | some n => n
                    | none => "✅ Connected")
            connection_status := "Connected" }
      match e.listCollections with
      | Except.ok cs =>
          { r with
              collections := cs.take 10
              database := "✅ Connected & Working" }
      | Except.error m =>
          { r with database := "⚠️  Connected but Error: " ++ m.take 50 }
    else { r0 with database := "⚠️  Available but not initialized" }
  { r1 with
      database_url := some (if e.urlSet then "✅ Set" else "❌ Not Set")
      database_name := some (if e.nameSet then "✅ Set" else "❌ Not Set") }

/-- A gateway whose count call raises, exercising the seeding failure
path. -/
def countFaultGateway : Gateway := ⟨false, true, fun _ => false, false⟩

/-- A stored document whose flavor `"Vanilla"` lies outside the literal
set, so that its coercion into `BreadProduct` fails. -/
def vanillaDoc : BreadProduct :=
  { name := "Vanilla Dream"
    description := none
    price := 5
    flavor := "Vanilla"
    vegan := true
    organic := true
    image := none
    in_stock := true
    available_today := true
    lead_time_hours := 0
    is_special := false
    special_price := none
    tags := [] }

/-- A valid product with every field populated, for round-trip checks. -/
def fullDoc : BreadProduct :=
  { name := "Test Loaf"
    description := some "a loaf for testing"
    price := 3
    flavor := "Banana"
    vegan := false
    organic := false
    image := some "https://example.com/loaf.png"
    in_stock := false
    available_today := false
    lead_time_hours := 12
    is_special := true
    special_price := some 2
    tags := ["tag one", "tag two"] }

/-- A valid order payload. -/
def sampleOrder : Order :=
  { customer_name := "Ann Example"
    email := "ann@example.com"
    phone := none
    product_name := "Banana Island Loaf"
    quantity := 2
    notes := none
    fulfillment_method := "pickup"
    pickup_time := none
    delivery_time := none
    delivery_address := none
    notify_via := "whatsapp"
    whatsapp := some "+15551234" }

/-- An order payload with quantity 51, above the schema bound. -/
def overOrder : Order := { sampleOrder with quantity := 51 }

/-- A contact payload whose message is shorter than 5 characters. -/
def shortContact : ContactMessage :=
  { name := "Bo", email := "bo@example.com", message := "hi" }

/-- The store obtained by seeding the empty store: the three defaults
with their generated identity fields. -/
def seededStore : ProductStore :=
  [⟨0, seedChoc⟩, ⟨1, seedBanana⟩, ⟨2, seedCoconut⟩]

/-! ## Theorems -/

/-- If some fetched document fails the field constraints, the coercion
loop of `list_products` yields no list at all. -/
theorem coerceProducts_eq_none {l : ProductStore}
    (h : ∃ d ∈ l, breadProductOk d.doc = false) : coerceProducts l = none := by
  induction l with
  | nil => rcases h with ⟨d, hd, _⟩; cases hd
  | cons a as ih =>
      rcases h with ⟨d, hd, hbad⟩
      rcases List.mem_cons.mp hd with rfl | hmem
      · simp [coerceProducts, validateBreadProduct, hbad]
      · cases hval : validateBreadProduct a.doc with
        | none => simp [coerceProducts, hval]
        | some p => simp [coerceProducts, hval, ih ⟨d, hmem, hbad⟩]

/-- If every fetched document satisfies the field constraints, the
coercion loop returns exactly the documents with their identity fields
stripped. -/
theorem coerceProducts_eq_map {l : ProductStore}
    (h : ∀ d ∈ l, breadProductOk d.doc = true) :
    coerceProducts l = some (l.map StoredDoc.doc) := by
  induction l with
  | nil => rfl
  | cons a as ih =>
      have ha := h a (List.mem_cons_self a as)
      simp [coerceProducts, validateBreadProduct, ha,
        ih (fun d hd => h d (List.mem_cons_of_mem _ hd))]

/-- The first default satisfies the product field constraints. -/
theorem seedChoc_ok : breadProductOk seedChoc = true := by
  norm_num [breadProductOk, seedChoc, flavorAllowed, optNonneg]

/-- The second default satisfies the product field constraints. -/
theorem seedBanana_ok : breadProductOk seedBanana = true := by
  norm_num [breadProductOk, seedBanana, flavorAllowed, optNonneg]

/-- The third default satisfies the product field constraints. -/
theorem seedCoconut_ok : breadProductOk seedCoconut = true := by
  norm_num [breadProductOk, seedCoconut, flavorAllowed, optNonneg]

/-- Coercing the freshly seeded store succeeds and strips the identity
fields. -/
theorem coerce_seeded :
    coerceProducts seededStore = some [seedChoc, seedBanana, seedCoconut] := by
  simp [seededStore, coerceProducts, validateBreadProduct,
    seedChoc_ok, seedBanana_ok, seedCoconut_ok]

/-- C1: against a fault-free gateway, the seeding routine inserts the
three fixed default products (Chocolate Sweet Bread, Banana Island Loaf,
Coconut Sunshine Loaf, each with every field explicitly set — in
particular Banana Island Loaf with `available_today = false`,
`lead_time_hours = 24`, `is_special = true`, `special_price = 6.75`) in
that order exactly when the stored count is zero, and performs no insert
when the count is non-zero. -/
theorem seeding_iff_empty (s : ProductStore) :
    (s.length = 0 →
      seed_products_if_empty noFaults s =
        s ++ [⟨0, seedChoc⟩, ⟨1, seedBanana⟩, ⟨2, seedCoconut⟩]) ∧
    (s.length ≠ 0 → seed_products_if_empty noFaults s = s) ∧
    seedChoc.name = "Chocolate Sweet Bread" ∧
    seedBanana.name = "Banana Island Loaf" ∧
    seedCoconut.name = "Coconut Sunshine Loaf" ∧
    seedBanana.available_today = false ∧
    seedBanana.lead_time_hours = 24 ∧
    seedBanana.is_special = true ∧
    seedBanana.special_price = some 6.75 := by
  refine ⟨?_, ?_, rfl, rfl, rfl, rfl, rfl, rfl, rfl⟩
  · intro h
    have hs : s = [] := List.length_eq_zero.mp h
    subst hs
    rfl
  · intro h
    simp [seed_products_if_empty, seedBody, noFaults, h]

/-- Witness for C1 at concrete stores: the empty store is seeded with the
three defaults; a one-element store is left untouched. -/
theorem seeding_iff_empty_witness :
    seed_products_if_empty noFaults [] =
      [⟨0, seedChoc⟩, ⟨1, seedBanana⟩, ⟨2, seedCoconut⟩] ∧
    seed_products_if_empty noFaults [⟨7, seedChoc⟩] = [⟨7, seedChoc⟩] := by
  constructor
  · simpa using (seeding_iff_empty []).1 rfl
  · exact (seeding_iff_empty [⟨7, seedChoc⟩]).2.1 (by decide)

/-- C2: listing twice from a freshly empty store is idempotent: the first
call leaves exactly the three defaults (e.g. Chocolate Sweet Bread with
price 8.5 and flavor "Chocolate") and returns them; the second call
returns the same three records and inserts nothing. -/
theorem listing_idempotent_from_empty :
    list_products noFaults [] =
      (seededStore, Except.ok [seedChoc, seedBanana, seedCoconut]) ∧
    seededStore = [⟨0, seedChoc⟩, ⟨1, seedBanana⟩, ⟨2, seedCoconut⟩] ∧
    seedChoc.name = "Chocolate Sweet Bread" ∧
    seedChoc.price = 8.5 ∧ seedChoc.flavor = "Chocolate" ∧
    list_products noFaults (list_products noFaults []).1 =
      ((list_products noFaults []).1,
        Except.ok [seedChoc, seedBanana, seedCoconut]) := by
  have h1 : seed_products_if_empty noFaults [] = seededStore := rfl
  have hread : readProducts noFaults seededStore =
      Except.ok [seedChoc, seedBanana, seedCoconut] := by
    simp [readProducts, get_documents, noFaults, coerce_seeded]
  have hmain : list_products noFaults [] =
      (seededStore, Except.ok [seedChoc, seedBanana, seedCoconut]) := by
    show (seed_products_if_empty noFaults [],
      readProducts noFaults (seed_products_if_empty noFaults [])) = _
    rw [h1, hread]
  refine ⟨hmain, rfl, rfl, rfl, rfl, ?_⟩
  rw [hmain]
  have h2 : seed_products_if_empty noFaults seededStore = seededStore := by
    simp [seed_products_if_empty, seedBody, noFaults, seededStore]
  show (seed_products_if_empty noFaults seededStore,
    readProducts noFaults (seed_products_if_empty noFaults seededStore)) = _
  rw [h2, hread]

/-- C3: whenever the seeding body raises (during the count check or any
insert), `_seed_products_if_empty` swallows the failure, returning the
state the store had reached, and the listing proceeds to the read phase on
that state — the response never depends on the seeding error. -/
theorem seeding_failure_swallowed (g : Gateway) (s : ProductStore)
    (e : String) (t : ProductStore)
    (h : seedBody g s = Except.error (e, t)) :
    seed_products_if_empty g s = t ∧
    list_products g s = (t, readProducts g t) := by
  have hs : seed_products_if_empty g s = t := by
    simp [seed_products_if_empty, h]
  exact ⟨hs, by simp [list_products, hs]⟩

/-- Witness for C3: with a raising count call on an empty store, the
failure is swallowed and the read legitimately returns zero records. -/
theorem seeding_failure_swallowed_witness :
    seed_products_if_empty countFaultGateway [] = [] ∧
    list_products countFaultGateway [] = ([], Except.ok []) := by
  have h := seeding_failure_swallowed countFaultGateway [] "count failed" [] rfl
  exact ⟨h.1, by rw [h.2]; rfl⟩

/-- C4: the listing strips the storage-internal identity field from every
fetched document and coerces it into the product shape; if the fetch
raises, or any single document fails coercion, the whole request fails
with a server error and no partial list is returned; when everything
coerces the full stripped list is returned. -/
theorem listing_strips_and_fails_whole (g : Gateway) (s : ProductStore) :
    (g.fetchFault = true →
      list_products g s =
        (seed_products_if_empty g s, Except.error "fetch failed")) ∧
    (g.fetchFault = false →
      ((∃ d ∈ seed_products_if_empty g s, breadProductOk d.doc = false) →
        list_products g s =
          (seed_products_if_empty g s, Except.error "validation error")) ∧
      ((∀ d ∈ seed_products_if_empty g s, breadProductOk d.doc = true) →
        list_products g s =
          (seed_products_if_empty g s,
            Except.ok ((seed_products_if_empty g s).map StoredDoc.doc)))) := by
  refine ⟨fun hf => ?_, fun hf => ⟨fun hbad => ?_, fun hok => ?_⟩⟩
  · simp [list_products, readProducts, get_documents, hf]
  · simp [list_products, readProducts, get_documents, hf,
      coerceProducts_eq_none hbad]
  · simp [list_products, readProducts, get_documents, hf,
      coerceProducts_eq_map hok]

/-- Witness for C4: a store holding one document with flavor "Vanilla"
makes the whole request fail with the server-error outcome. -/
theorem listing_strips_and_fails_whole_witness :
    list_products noFaults [⟨0, vanillaDoc⟩] =
      ([⟨0, vanillaDoc⟩], Except.error "validation error") := by
  have hbad : breadProductOk vanillaDoc = false := by
    norm_num [breadProductOk, vanillaDoc, flavorAllowed, optNonneg]
    decide
  have hmem : (⟨0, vanillaDoc⟩ : StoredDoc) ∈
      seed_products_if_empty noFaults [⟨0, vanillaDoc⟩] := by
    show (⟨0, vanillaDoc⟩ : StoredDoc) ∈ [(⟨0, vanillaDoc⟩ : StoredDoc)]
    simp
  exact ((listing_strips_and_fails_whole noFaults [⟨0, vanillaDoc⟩]).2 rfl).1
    ⟨⟨0, vanillaDoc⟩, hmem, hbad⟩

/-- The generated persistence identifier is never empty. -/
theorem genId_ne_empty (n : Nat) : genId n ≠ "" := by
  intro h
  have h2 := congrArg String.length h
  simp [genId, String.length_append] at h2
  exact absurd h2.1 (by decide)

/-- C5: every valid order payload (quantity in `[1,50]`, well-formed
email, enumerations respected) is accepted: the order is persisted
exactly once and the response carries status "ok", a non-empty generated
identifier, and a notification descriptor echoing the payload's
`notify_via` with status "queued". -/
theorem valid_order_accepted (o : Order) (s : List Order)
    (he : emailValid o.email = true)
    (hq : 1 ≤ o.quantity ∧ o.quantity ≤ 50)
    (hf : o.fulfillment_method = "pickup" ∨ o.fulfillment_method = "delivery")
    (hn : o.notify_via = "email" ∨ o.notify_via = "whatsapp") :
    handle_create_order o s =
      (s ++ [o],
       Except.ok
         { status := "ok"
           order_id := genId s.length
           notification_channel := o.notify_via
           notification_status := "queued" }) ∧
    genId s.length ≠ "" := by
  have hok : orderOk o = true := by
    unfold orderOk
    rcases hf with hf | hf <;> rcases hn with hn | hn <;> simp [he, hf, hn, hq]
  exact ⟨by simp [handle_create_order, validateOrder, hok], genId_ne_empty _⟩

/-- Witness for C5 at a concrete valid order. -/
theorem valid_order_accepted_witness :
    handle_create_order sampleOrder [] =
      ([sampleOrder],
       Except.ok
         { status := "ok"
           order_id := genId 0
           notification_channel := "whatsapp"
           notification_status := "queued" }) ∧
    genId 0 ≠ "" := by
  have h := valid_order_accepted sampleOrder [] (by decide) (by decide)
    (Or.inl rfl) (Or.inr rfl)
  exact ⟨h.1, h.2⟩

/-- C6: an order payload with quantity 0 or 51, or with a malformed
email, is rejected by schema validation before any persistence attempt:
the store is untouched and no order identifier is returned. -/
theorem invalid_order_rejected (o : Order) (s : List Order)
    (h : o.quantity = 0 ∨ o.quantity = 51 ∨ emailValid o.email = false) :
    handle_create_order o s = (s, Except.error "validation rejected") := by
  have hbad : orderOk o = false := by
    unfold orderOk
    rcases h with h | h | h
    · have hq : ¬(1 ≤ o.quantity ∧ o.quantity ≤ 50) := by omega
      simp [hq]
    · have hq : ¬(1 ≤ o.quantity ∧ o.quantity ≤ 50) := by omega
      simp [hq]
    · simp [h]
  simp [handle_create_order, validateOrder, hbad]

/-- Witness for C6: quantity 51 is rejected with the store untouched. -/
theorem invalid_order_rejected_witness :
    handle_create_order overOrder [] = ([], Except.error "validation rejected") :=
  invalid_order_rejected overOrder [] (Or.inr (Or.inl rfl))

/-- C7: a fully-populated valid product inserted directly into storage is
returned by the listing with every field value unchanged and without the
storage-internal identity field. -/
theorem product_roundtrip (n : Nat) (d : BreadProduct)
    (hok : breadProductOk d = true)
    (hdesc : d.description.isSome = true)
    (himg : d.image.isSome = true)
    (hsp : d.special_price.isSome = true) :
    list_products noFaults [⟨n, d⟩] = ([⟨n, d⟩], Except.ok [d]) := by
  have hseed : seed_products_if_empty noFaults [⟨n, d⟩] = [⟨n, d⟩] := by
    simp [seed_products_if_empty, seedBody, noFaults]
  show (seed_products_if_empty noFaults [⟨n, d⟩],
    readProducts noFaults (seed_products_if_empty noFaults [⟨n, d⟩])) = _
  rw [hseed]
  simp [readProducts, get_documents, noFaults, coerceProducts,
    validateBreadProduct, hok]

/-- Witness for C7 at a concrete fully-populated product. -/
theorem product_roundtrip_witness :
    list_products noFaults [⟨3, fullDoc⟩] = ([⟨3, fullDoc⟩], Except.ok [fullDoc]) := by
  have hok : breadProductOk fullDoc = true := by
    norm_num [breadProductOk, fullDoc, flavorAllowed, optNonneg]
  exact product_roundtrip 3 fullDoc hok rfl rfl rfl

/-- C8: for a product payload meeting the numeric constraints, validation
accepts exactly when the flavor is one of "Chocolate", "Banana",
"Coconut"; any other value is rejected. -/
theorem flavor_enum_enforced (d : BreadProduct)
    (hp : 0 ≤ d.price)
    (hl : 0 ≤ d.lead_time_hours ∧ d.lead_time_hours ≤ 168)
    (hs : optNonneg d.special_price = true) :
    (validateBreadProduct d).isSome = true ↔
      (d.flavor = "Chocolate" ∨ d.flavor = "Banana" ∨ d.flavor = "Coconut") := by
  unfold validateBreadProduct
  split
  case isTrue hb =>
    unfold breadProductOk flavorAllowed at hb
    simp only [Bool.and_eq_true, Bool.or_eq_true, decide_eq_true_eq] at hb
    simp only [Option.isSome_some, true_iff]
    tauto
  case isFalse hb =>
    simp only [Option.isSome_none, Bool.false_eq_true, false_iff]
    intro hfl
    apply hb
    unfold breadProductOk flavorAllowed
    simp only [Bool.and_eq_true, Bool.or_eq_true, decide_eq_true_eq]
    exact ⟨⟨⟨hp, by tauto⟩, hl⟩, hs⟩

/-- Witness for C8: a Banana-flavored payload is accepted, a
Vanilla-flavored one is rejected. -/
theorem flavor_enum_enforced_witness :
    (validateBreadProduct fullDoc).isSome = true ∧
    ¬(validateBreadProduct vanillaDoc).isSome = true := by
  constructor
  · exact (flavor_enum_enforced fullDoc (by norm_num [fullDoc])
      (by norm_num [fullDoc]) (by norm_num [fullDoc, optNonneg])).mpr
      (Or.inr (Or.inl rfl))
  · intro h
    have h2 := (flavor_enum_enforced vanillaDoc (by norm_num [vanillaDoc])
      (by norm_num [vanillaDoc]) (by norm_num [vanillaDoc, optNonneg])).mp h
    revert h2
    decide

/-- C9: a contact payload whose message is shorter than 5 characters or
longer than 2000 characters is rejected by schema validation and nothing
is persisted. -/
theorem contact_length_rejected (m : ContactMessage) (s : List ContactMessage)
    (h : m.message.length < 5 ∨ m.message.length > 2000) :
    handle_contact m s = (s, Except.error "validation rejected") := by
  have hbad : contactOk m = false := by
    unfold contactOk
    have hlen : ¬(5 ≤ m.message.length ∧ m.message.length ≤ 2000) := by omega
    simp [hlen]
  simp [handle_contact, validateContact, hbad]

/-- Witness for C9: the two-character message "hi" is rejected. -/
theorem contact_length_rejected_witness :
    handle_contact shortContact [] = ([], Except.error "validation rejected") :=
  contact_length_rejected shortContact [] (Or.inl (by decide))

/-- C10: in every `/test` response the `database_url` and `database_name`
fields equal "✅ Set" or "❌ Not Set" determined solely by the presence of
the two environment variables; the final assignments overwrite any
connection-derived value, whatever the connection state was. -/
theorem test_flags_from_env_only (e : TestEnv) :
    (test_database e).database_url =
      some (if e.urlSet then "✅ Set" else "❌ Not Set") ∧
    (test_database e).database_name =
      some (if e.nameSet then "✅ Set" else "❌ Not Set") :=
  ⟨rfl, rfl⟩

end Bakery
